import Mathlib

/-!
Verification development for the EXON_web score-submission backend.

This file gives a shallow embedding, in Lean 4, of the submission
validation and anti-cheat pipeline found in
`app/api/submit-score/route.ts`, the token endpoint
(`verifyToken` / `signToken`), the shared auth helpers
(`checkRateLimit`, `validateSteamTicket` in `util/auth.ts`) and the
metadata packer, together with theorems settling the specification
claims about them.

Modelling conventions:
- JavaScript numbers that hold integral game statistics are embedded as
  `Int` (all arithmetic in the validated paths is integral and far from
  2^53, so no overflow modelling is needed).
- External I/O (Redis, the Steam Web API, Postgres) is embedded as
  explicit state passing: the Redis rate-limit store and the nonce
  replay-guard store are explicit store values threaded through the
  handlers, and external responses are inputs to the handler functions.
- Fallible steps are embedded with `Option` / `Except`.
- Cryptographic primitives (HMAC-SHA256, base64 decoding + JSON parsing
  of the token payload) are abstracted as function parameters, since the
  control flow under verification never depends on their internals.
-/

namespace ExonWeb

/-! ## Data model (from `app/api/submit-score/route.ts`) -/

structure GunStats where
  name : String
  kills : Int
  damage : Int
  acquisitions : Int
deriving DecidableEq

structure AbilityStats where
  name : String
  kills : Int
  uses : Int
  utility : Int
  damage : Int
  acquisitions : Int
deriving DecidableEq

structure StatsSubmission where
  steamId : String
  ticket : String
  difficulty : String
  finalScore : Int
  roundTimes : List Int
  roundKills : List Int
  gunStats : List GunStats
  abilityStats : List AbilityStats
  warpAcquisitions : Int
  jumpAcquisitions : Int
  miscellaneousAcquisitions : Int
  token : String
deriving DecidableEq

structure ValidationResult where
  valid : Bool
  reason : Option String
deriving DecidableEq

/-! ## Validation constants (from `app/api/submit-score/route.ts`) -/

def MIN_TOTAL_DAMAGE : Int := 100000
def MAX_TOTAL_DAMAGE : Int := 200000
def MAX_TOTAL_KILLS : Int := 255 + 10
def MAX_ABILITY_USES : Int := 150
def MAX_UTILITY_STAT : Int := 50000
def EXPECTED_ROUND_COUNT : Nat := 10
def EXPECTED_GUN_COUNT : Nat := 8
def EXPECTED_ABILITY_COUNT : Nat := 5
def SPAWN_DURATION_MS : Int := 2300

/-- One row of `ROUND_SPAWN_DATA`: `[totalMonsters, mutants, lastSpawnRequestTime (seconds)]`. -/
structure SpawnRow where
  totalMonsters : Int
  mutants : Int
  lastSpawnTimeSec : Int
deriving DecidableEq

def ROUND_SPAWN_DATA : List SpawnRow :=
  [⟨12, 0, 15⟩, ⟨15, 0, 15⟩, ⟨18, 3, 15⟩, ⟨21, 3, 18⟩, ⟨24, 3, 16⟩,
   ⟨28, 3, 18⟩, ⟨30, 3, 18⟩, ⟨33, 3, 16⟩, ⟨35, 3, 13⟩, ⟨39, 3, 17⟩]

def validDifficulties : List String := ["easy", "medium", "hard", "veryHard"]

/-- JS `reduce((a, b) => a + b, 0)`. -/
def sumInts (l : List Int) : Int := l.foldl (· + ·) 0

/-- The per-round check body of `validateStats`, for round index `i`
(0-based), producing the first failure reason among the three checks of
the loop body, or `none` when round `i` passes. -/
def roundFailReason (i : Nat) (t k : Int) (row : SpawnRow) : Option String :=
  let minRoundTime := row.lastSpawnTimeSec * 1000 + SPAWN_DURATION_MS
  if t < minRoundTime then
    some s!"Round {i + 1} time {t}ms is faster than physically possible (min: {minRoundTime}ms)"
  else
    let minimumKills := row.totalMonsters - row.mutants
    if k < minimumKills then
      some s!"Round {i + 1} has less kills than minimum possible: {minimumKills}"
    else if k > row.totalMonsters then
      some s!"Round {i + 1} kills {k} exceeds reasonable maximum: {row.totalMonsters}"
    else none

/-- The `for` loop of `validateStats` over rounds, walking the paired
round times/kills against `ROUND_SPAWN_DATA`; returns the first failure
reason, or `none` when every round passes. -/
def checkRounds : List (Int × Int) → List SpawnRow → Nat → Option String
  | (t, k) :: rest, row :: rows, i =>
    match roundFailReason i t k row with
    | some r => some r
    | none => checkRounds rest rows (i + 1)
  | _, _, _ => none

/-- The `for (const gun of submission.gunStats)` loop: per-gun range
checks plus accumulation of total kills and damage. -/
def checkGuns : List GunStats → Int → Int → Except String (Int × Int)
  | [], totalGunKills, totalGunDamage => .ok (totalGunKills, totalGunDamage)
  | gun :: rest, totalGunKills, totalGunDamage =>
    if gun.kills < 0 ∨ gun.kills > MAX_TOTAL_KILLS then
      .error s!"{gun.name} kills out of range: {gun.kills}"
    else if gun.damage < 0 ∨ gun.damage > MAX_TOTAL_DAMAGE then
      .error s!"{gun.name} damage out of range: {gun.damage}"
    else checkGuns rest (totalGunKills + gun.kills) (totalGunDamage + gun.damage)

/-- The `for (const ability of submission.abilityStats)` loop: per-ability
range checks plus accumulation of uses, utility and kills. -/
def checkAbilities : List AbilityStats → Int → Int → Int → Except String (Int × Int × Int)
  | [], totalAbilityUses, totalAbilityUtility, totalAbilityKills =>
    .ok (totalAbilityUses, totalAbilityUtility, totalAbilityKills)
  | ability :: rest, totalAbilityUses, totalAbilityUtility, totalAbilityKills =>
    if ability.uses < 0 ∨ ability.uses > MAX_ABILITY_USES then
      .error s!"{ability.name} uses out of range: {ability.uses}"
    else if ability.utility < 0 ∨ ability.utility > MAX_UTILITY_STAT then
      .error s!"{ability.name} utility out of range: {ability.utility}"
    else if ability.kills < 0 then
      .error s!"{ability.name} has negative kills: {ability.kills}"
    else
      checkAbilities rest (totalAbilityUses + ability.uses)
        (totalAbilityUtility + ability.utility) (totalAbilityKills + ability.kills)

/-! Reason strings of `validateStats`, verbatim from the source, factored
into small definitions so the validator term stays compact. -/

def reasonInvalidDifficulty (d : String) : String := s!"Invalid difficulty: {d}"

def reasonWrongRoundCount (n : Nat) : String :=
  s!"Expected {EXPECTED_ROUND_COUNT} rounds, got {n}"

def reasonWrongRoundKillsCount (n : Nat) : String :=
  s!"Expected {EXPECTED_ROUND_COUNT} roundKills, got {n}"

def reasonScoreMismatch (fs total : Int) : String :=
  s!"finalScore ({fs}) doesn\x27t match sum of rounds ({total})"

def reasonWrongGunCount (n : Nat) : String :=
  s!"Expected {EXPECTED_GUN_COUNT} guns, got {n}"

def reasonGunKillsHigh (k : Int) : String := s!"Total gun kills exceeds maximum: {k}"

def reasonDamageHigh (d : Int) : String := s!"Total damage exceeds maximum: {d}"

def reasonDamageLow (d : Int) : String := s!"Total damage below minimum: {d}"

def reasonWrongAbilityCount (n : Nat) : String :=
  s!"Expected {EXPECTED_ABILITY_COUNT} abilities, got {n}"

def reasonUsesHigh (u : Int) : String := s!"Total ability uses exceeds maximum: {u}"

def reasonKillsSuspicious (k : Int) : String :=
  s!"Kill count suspiciously high: {k} exceeds maximum allowed {MAX_TOTAL_KILLS}"

/-- `validateStats` from `app/api/submit-score/route.ts` (first failure
wins; reason strings reproduce the source messages). -/
def validateStats (submission : StatsSubmission) : ValidationResult :=
  if validDifficulties.contains submission.difficulty = false then
    ⟨false, some (reasonInvalidDifficulty submission.difficulty)⟩
  else if submission.roundTimes.length ≠ EXPECTED_ROUND_COUNT then
    ⟨false, some (reasonWrongRoundCount submission.roundTimes.length)⟩
  else if submission.roundKills.length ≠ EXPECTED_ROUND_COUNT then
    ⟨false, some (reasonWrongRoundKillsCount submission.roundKills.length)⟩
  else
    match checkRounds (submission.roundTimes.zip submission.roundKills) ROUND_SPAWN_DATA 0 with
    | some r => ⟨false, some r⟩
    | none =>
      if 1000 < |submission.finalScore - sumInts submission.roundTimes| then
        ⟨false, some (reasonScoreMismatch submission.finalScore (sumInts submission.roundTimes))⟩
      else if submission.gunStats.length ≠ EXPECTED_GUN_COUNT then
        ⟨false, some (reasonWrongGunCount submission.gunStats.length)⟩
      else
        match checkGuns submission.gunStats 0 0 with
        | .error r => ⟨false, some r⟩
        | .ok (totalGunKills, totalGunDamage) =>
          if totalGunKills > MAX_TOTAL_KILLS then
            ⟨false, some (reasonGunKillsHigh totalGunKills)⟩
          else if totalGunDamage > MAX_TOTAL_DAMAGE then
            ⟨false, some (reasonDamageHigh totalGunDamage)⟩
          else if totalGunDamage < MIN_TOTAL_DAMAGE then
            ⟨false, some (reasonDamageLow totalGunDamage)⟩
          else if submission.abilityStats.length ≠ EXPECTED_ABILITY_COUNT then
            ⟨false, some (reasonWrongAbilityCount submission.abilityStats.length)⟩
          else
            match checkAbilities submission.abilityStats 0 0 0 with
            | .error r => ⟨false, some r⟩
            | .ok (totalAbilityUses, _totalAbilityUtility, totalAbilityKills) =>
              if totalAbilityUses > MAX_ABILITY_USES then
                ⟨false, some (reasonUsesHigh totalAbilityUses)⟩
              else
                if totalGunKills + totalAbilityKills > MAX_TOTAL_KILLS then
                  ⟨false, some (reasonKillsSuspicious (totalGunKills + totalAbilityKills))⟩
                else
                  ⟨true, none⟩

/-! ## Capability token service (from the get-token route, `verifyToken`)

The HMAC-SHA256-then-base64url computation and the base64url-decode +
`JSON.parse` of the payload are abstracted as function parameters
(`hmac`, `decodePayload`); `verifyToken` only branches on their
results, never on their internals. A `decodePayload` result of `none`
models the `JSON.parse` throw caught by the surrounding `try`. -/

structure TokenPayload where
  steamId : String
  iat : Int
  exp : Int
  nonce : String
deriving DecidableEq

structure VerifyResult where
  valid : Bool
  payload : Option TokenPayload
  reason : Option String
deriving DecidableEq

/-- JS `token.split('.')`: splitting on a single-character separator,
embedded over the character list (empty segments are preserved, and a
string with no separator yields the one-element list, as in JS). -/
def splitOnDot (s : String) : List String :=
  (s.toList.splitOn '.').map (fun cs => String.mk cs)

def verifyToken (secretConfigured : Bool) (hmac : String → String)
    (decodePayload : String → Option TokenPayload) (now : Int) (token : String) : VerifyResult :=
  if secretConfigured = false then
    ⟨false, none, some ("Server configuration error")⟩
  else
    let parts := splitOnDot token
    if parts.length ≠ 2 then
      ⟨false, none, some ("Invalid token format")⟩
    else
      let payloadBase64 := parts.getD 0 ("")
      let signature := parts.getD 1 ("")
      let expectedSignature := hmac payloadBase64
      if signature ≠ expectedSignature then
        ⟨false, none, some ("Invalid signature")⟩
      else
        match decodePayload payloadBase64 with
        | none => ⟨false, none, some ("Token verification failed")⟩
        | some payload =>
          if payload.exp < now then
            ⟨false, none, some ("Token expired")⟩
          else
            ⟨true, some payload, none⟩

/-! ## Identity ticket validator (`validateSteamTicket` in `util/auth.ts`)

The external Steam auth call is embedded as an input value: either the
fetch/JSON step threw (`fetchFailed`, the `catch` branch) or it produced
a response object with the fields the code reads. JS truthiness of the
optional string fields is modelled explicitly (missing or empty string
is falsy). -/

structure SteamAuthResponse where
  error : Bool
  steamid : Option String
  ownersteamid : Option String
deriving DecidableEq

structure SteamAuthResult where
  fetchFailed : Bool
  resp : SteamAuthResponse
deriving DecidableEq

structure TicketResult where
  valid : Bool
  reason : Option String
deriving DecidableEq

def validateSteamTicket (r : SteamAuthResult) (steamId : String) : TicketResult :=
  if r.fetchFailed then
    ⟨false, some ("Validation failed")⟩
  else if r.resp.error then
    ⟨false, some ("Invalid ticket")⟩
  else
    match r.resp.steamid with
    | none => ⟨false, some ("Steam ID mismatch")⟩
    | some ticketSteamId =>
      if ticketSteamId = "" ∨ ticketSteamId ≠ steamId then
        ⟨false, some ("Steam ID mismatch")⟩
      else
        match r.resp.ownersteamid with
        | none => ⟨true, none⟩
        | some ownerSteamId =>
          if ownerSteamId ≠ "" ∧ ownerSteamId ≠ steamId then
            ⟨false, some ("Not app owner")⟩
          else
            ⟨true, none⟩

/-! ## Rate limiter (`checkRateLimit` in `util/auth.ts`)

The Redis store is embedded as an explicit value: a counter map and a
TTL map over bucket keys. `incr`, `expire` and `ttl` act on that value.
Time is an explicit `nowMs` parameter; `Math.floor(Date.now() / 1000 /
window)` becomes the `Nat` division `nowMs / 1000 / window`. -/

structure RlStore where
  counts : String → Nat
  ttls : String → Int

structure RateLimitResult where
  limited : Bool
  retryAfter : Option Int
deriving DecidableEq

def rlBucket (key : String) (window : Nat) (nowMs : Nat) : String :=
  "rl:" ++ key ++ ":" ++ toString (nowMs / 1000 / window)

def checkRateLimit (key : String) (window : Nat) (maxRequests : Nat) (nowMs : Nat)
    (s : RlStore) : RateLimitResult × RlStore :=
  let bucket := rlBucket key window nowMs
  let count := s.counts bucket + 1
  let s1 : RlStore := ⟨fun k => if k = bucket then count else s.counts k, s.ttls⟩
  let s2 : RlStore :=
    if count = 1 then ⟨s1.counts, fun k => if k = bucket then (window : Int) else s.ttls k⟩
    else s1
  if count > maxRequests then
    let ttl := s2.ttls bucket
    (⟨true, some (if ttl > 0 then ttl else (window : Int))⟩, s2)
  else
    (⟨false, none⟩, s2)

/-- A store with no existing buckets (fresh Redis state). -/
def rlEmpty : RlStore := ⟨fun _ => 0, fun _ => 0⟩

/-- `n` successive calls of `checkRateLimit` with the same key, window,
limit and clock, returning the final store. -/
def rlIterate (key : String) (window maxRequests : Nat) (nowMs : Nat) : Nat → RlStore → RlStore
  | 0, s => s
  | n + 1, s => rlIterate key window maxRequests nowMs n (checkRateLimit key window maxRequests nowMs s).2

/-! ## Metadata packer (`packStatsToMetadata`)

The JS details array (`new Array(64).fill(0)` plus index writes) is
embedded as a total function `Nat → Int` starting from the constant-zero
function, with each `details[i] = v` a pointwise update; the final array
is the function materialized over indices `0..63`. -/

def slotUpd (d : Nat → Int) (i : Nat) (v : Int) : Nat → Int :=
  fun j => if j = i then v else d j

def gunOrder : List String :=
  ["pistol", "shotgun", "rifle", "launcher", "minigun", "reserved1", "reserved2", "reserved3"]

def abilityOrder : List String := ["blast", "blade", "barrier", "combustion", "reserved1"]

/-- The loop body for one gun slot: writes kills/damage/acquisitions at
offset `index * 3` when a matching gun was found, else writes nothing. -/
def gunWrite (d : Nat → Int) (index : Nat) : Option GunStats → (Nat → Int)
  | some gun =>
    slotUpd (slotUpd (slotUpd d (index * 3) gun.kills) (index * 3 + 1) gun.damage)
      (index * 3 + 2) gun.acquisitions
  | none => d

/-- The loop body for one ability slot: writes the five fields at offset
`24 + index * 5` when a matching ability was found. -/
def abilityWrite (d : Nat → Int) (index : Nat) : Option AbilityStats → (Nat → Int)
  | some ability =>
    slotUpd (slotUpd (slotUpd (slotUpd (slotUpd d (24 + index * 5) ability.kills)
      (24 + index * 5 + 1) ability.uses) (24 + index * 5 + 2) ability.utility)
      (24 + index * 5 + 3) ability.damage) (24 + index * 5 + 4) ability.acquisitions
  | none => d

/-- `gunOrder.forEach((gunName, index) => ...)`. -/
def packGuns (gunStats : List GunStats) : List String → Nat → (Nat → Int) → (Nat → Int)
  | [], _, d => d
  | gunName :: rest, index, d =>
    packGuns gunStats rest (index + 1)
      (gunWrite d index (gunStats.find? (fun g => g.name == gunName)))

/-- `abilityOrder.forEach((abilityName, index) => ...)`. -/
def packAbilities (abilityStats : List AbilityStats) : List String → Nat → (Nat → Int) → (Nat → Int)
  | [], _, d => d
  | abilityName :: rest, index, d =>
    packAbilities abilityStats rest (index + 1)
      (abilityWrite d index (abilityStats.find? (fun a => a.name == abilityName)))

/-- The details array as a function of the slot index. -/
def packFun (gunStats : List GunStats) (abilityStats : List AbilityStats) : Nat → Int :=
  packAbilities abilityStats abilityOrder 0 (packGuns gunStats gunOrder 0 (fun _ => 0))

/-- `packStatsToMetadata` from `app/api/submit-score/route.ts`. -/
def packStatsToMetadata (gunStats : List GunStats) (abilityStats : List AbilityStats) : List Int :=
  (List.range 64).map (packFun gunStats abilityStats)

/-! ## Steam leaderboard forward step with the result-code-8 retry

`submitToSteam` (the external call) is abstracted as a function from the
request parameters to a response; the orchestrator's failsafe block is
the function below, which also records which calls were issued. -/

structure SteamCallParams where
  key : String
  appid : String
  leaderboardid : String
  steamid : String
  score : String
  scoremethod : String
  details : Option String
deriving DecidableEq

structure SteamCallResponse where
  resultCode : Option Int
  ok : Bool
deriving DecidableEq

/-- The forward step of `POST` (non-mock branch): one call, then — only
when the response carries result code 8 — exactly one retry with the
same parameters minus `details`. Returns the final response and the list
of issued calls in order. -/
def submitWithRetry (call : SteamCallParams → SteamCallResponse)
    (params : SteamCallParams) : SteamCallResponse × List SteamCallParams :=
  let first := call params
  if first.resultCode = some 8 then
    let paramsWithoutDetails := { params with details := none }
    (call paramsWithoutDetails, [params, paramsWithoutDetails])
  else
    (first, [params])

/-! ## Replay-guard store and the submission pipeline (`POST` of
`app/api/submit-score/route.ts`)

The nonce store maps a nonce to the TTL it was stored with (`none` =
absent). The handler is a function of the request body, the external
check results it cannot compute itself (rate-limit verdicts, the Steam
auth response, the DB ban flag), the token-crypto abstraction and the
clock; it returns the structured outcome plus the new nonce store.
Response fields `status`/`success`/`bannedFlag` mirror the HTTP status
and the `SubmitScoreResult`; `banInvoked`/`banReason` record whether and
why `banSteamId` was called. -/

def NonceStore : Type := String → Option Int

structure SubmitOutcome where
  status : Nat
  success : Bool
  bannedFlag : Bool
  banInvoked : Bool
  banReason : Option String
deriving DecidableEq

structure SubmitEnv where
  ipLimited : Bool
  steamLimited : Bool
  authResult : SteamAuthResult
  dbBanned : Bool
  secretConfigured : Bool
  hmac : String → String
  decodePayload : String → Option TokenPayload
  nowSec : Int

def submitScorePost (env : SubmitEnv) (body : StatsSubmission)
    (store : NonceStore) : SubmitOutcome × NonceStore :=
  -- 1. rate limit gates (IP, then Steam ID)
  if env.ipLimited then (⟨429, false, false, false, none⟩, store)
  else if env.steamLimited then (⟨429, false, false, false, none⟩, store)
  -- 2. essential fields (JS falsiness of the strings)
  else if body.steamId = "" ∨ body.ticket = "" then
    (⟨400, false, true, body.steamId ≠ "",
      if body.steamId ≠ "" then some ("Missing required fields (tampered client)") else none⟩,
     store)
  else
    -- 3. Steam ticket validation: reject without banning
    let ticketValidation := validateSteamTicket env.authResult body.steamId
    if ticketValidation.valid = false then (⟨403, false, false, false, none⟩, store)
    -- 4. DB ban check
    else if env.dbBanned then (⟨403, false, true, false, none⟩, store)
    -- 5. data-field completeness (the string fields that can be falsy in our typed model)
    else if body.difficulty = "" ∨ body.token = "" then
      (⟨400, false, true, true, some ("Missing data fields (tampered client)")⟩, store)
    else
      -- 6. JWT token verification (auto-ban on failure)
      let tokenValidation :=
        verifyToken env.secretConfigured env.hmac env.decodePayload env.nowSec body.token
      if tokenValidation.valid = false then
        (⟨403, false, true, true, some ("Invalid JWT token (tampered client)")⟩, store)
      else
        -- 6b. token steamId must match the submission steamId (auto-ban)
        match tokenValidation.payload with
        | none => (⟨403, false, true, true, some ("Token Steam ID mismatch (tampered client)")⟩, store)
        | some payload =>
          if payload.steamId ≠ body.steamId then
            (⟨403, false, true, true, some ("Token Steam ID mismatch (tampered client)")⟩, store)
          else
            -- 6c. replay check: redis.exists on the nonce key (auto-ban when present)
            let nonce := payload.nonce
            if (store nonce).isSome then
              (⟨403, false, true, true, some ("Token replay attack (tampered client)")⟩, store)
            else
              -- mark the nonce used: setex with TTL = remaining lifetime + 60s
              let tokenTTL := payload.exp - env.nowSec + 60
              let store' : NonceStore := fun n => if n = nonce then some tokenTTL else store n
              -- 7. stats validation: reject without banning, nonce stays consumed
              let statsValidation := validateStats body
              if statsValidation.valid = false then
                (⟨403, false, false, false, none⟩, store')
              else
                (⟨200, true, false, false, none⟩, store')

/-! ## Token issuance endpoint gate sequence (the get-token route)

Only the control flow relevant to the ban policy is needed: every ticket
validation failure — the transient `Validation failed` included — calls
`banSteamId`. -/

structure TokenEndpointOutcome where
  status : Nat
  banInvoked : Bool
  banReason : Option String
deriving DecidableEq

def getTokenPost (ipLimited steamLimited : Bool) (steamId ticket : String)
    (dbBanned : Bool) (authResult : SteamAuthResult) : TokenEndpointOutcome :=
  if ipLimited then ⟨429, false, none⟩
  else if steamLimited then ⟨429, false, none⟩
  else if steamId = "" ∨ ticket = "" then ⟨400, false, none⟩
  else if dbBanned then ⟨403, false, none⟩
  else
    let ticketValidation := validateSteamTicket authResult steamId
    if ticketValidation.valid = false then
      ⟨403, true,
        some ("Token request with invalid Steam ticket: " ++ ticketValidation.reason.getD "")⟩
    else
      ⟨200, false, none⟩

/-! ## Replay-check race model (lines around `redis.exists` / `redis.setex`)

Two concurrent submissions present the same nonce. Each process performs
the two store operations the code performs, as separate steps:
first `exists(nonceKey)`, then (only if it read absent) `setex`. A
schedule is the interleaving of process steps; `raceStep b` advances
process 0 when `b = false` and process 1 when `b = true`. An outcome of
`passedCheck` means that submission got past the replay gate. -/

inductive RaceOutcome where
  | pending
  | passedCheck
  | rejectedReplay
deriving DecidableEq

structure RaceProc where
  pc : Nat
  readExists : Bool
  outcome : RaceOutcome
deriving DecidableEq

structure RaceState where
  nonceSet : Bool
  proc0 : RaceProc
  proc1 : RaceProc
deriving DecidableEq

def procStep (nonceSet : Bool) (p : RaceProc) : RaceProc × Bool :=
  if p.pc = 0 then
    ({ p with pc := 1, readExists := nonceSet }, nonceSet)
  else if p.pc = 1 then
    if p.readExists then
      ({ p with pc := 2, outcome := .rejectedReplay }, nonceSet)
    else
      ({ p with pc := 2, outcome := .passedCheck }, true)
  else
    (p, nonceSet)

def raceStep (which : Bool) (s : RaceState) : RaceState :=
  if which then
    let (p', n') := procStep s.nonceSet s.proc1
    { s with proc1 := p', nonceSet := n' }
  else
    let (p', n') := procStep s.nonceSet s.proc0
    { s with proc0 := p', nonceSet := n' }

def runRace (schedule : List Bool) (s : RaceState) : RaceState :=
  schedule.foldl (fun st which => raceStep which st) s

def raceInit : RaceState := ⟨false, ⟨0, false, .pending⟩, ⟨0, false, .pending⟩⟩

/-! ## Concrete inputs used by counterexamples and witnesses -/

/-- The empty replay-guard store. -/
def emptyNonces : NonceStore := fun _ => none

/-- A submission every check of `validateStats` accepts, whose combined
gun+ability kill total (100 + 50 = 150) differs from the sum of its
per-round kills (255): round times are exactly the per-round minimums,
round kills are exactly the spawn counts. -/
def exC1 : StatsSubmission :=
  { steamId := "76561198000000001", ticket := "tk", difficulty := "easy", finalScore := 184000,
    roundTimes := [17300, 17300, 17300, 20300, 18300, 20300, 20300, 18300, 15300, 19300],
    roundKills := [12, 15, 18, 21, 24, 28, 30, 33, 35, 39],
    gunStats := [⟨"pistol", 100, 150000, 0⟩, ⟨"shotgun", 0, 0, 0⟩, ⟨"rifle", 0, 0, 0⟩,
      ⟨"launcher", 0, 0, 0⟩, ⟨"minigun", 0, 0, 0⟩, ⟨"RESERVED1", 0, 0, 0⟩,
      ⟨"RESERVED2", 0, 0, 0⟩, ⟨"RESERVED3", 0, 0, 0⟩],
    abilityStats := [⟨"blast", 50, 10, 100, 0, 0⟩, ⟨"blade", 0, 0, 0, 0, 0⟩,
      ⟨"barrier", 0, 0, 0, 0, 0⟩, ⟨"combustion", 0, 0, 0, 0, 0⟩, ⟨"RESERVED1", 0, 0, 0, 0, 0⟩],
    warpAcquisitions := 0, jumpAcquisitions := 0, miscellaneousAcquisitions := 0, token := "t.s" }

/-- The combustion slot of `exC5`: 10 kills but a utility of 35. -/
def combustionC5 : AbilityStats := ⟨"combustion", 10, 5, 35, 0, 0⟩

/-- A submission every check of `validateStats` accepts although its
combustion ability reports `utility = 35` while `kills = 10`. -/
def exC5 : StatsSubmission :=
  { exC1 with
    abilityStats := [⟨"blast", 0, 0, 0, 0, 0⟩, ⟨"blade", 0, 0, 0, 0, 0⟩,
      ⟨"barrier", 0, 0, 0, 0, 0⟩, combustionC5, ⟨"RESERVED1", 0, 0, 0, 0, 0⟩] }

/-- A submission whose round 1 time (17000 ms) is below the 17300 ms
minimum derived from the round-1 spawn profile. -/
def exC7 : StatsSubmission := { exC1 with roundTimes := [17000, 17300, 17300, 20300, 18300, 20300, 20300, 18300, 15300, 19300] }

/-- Steam auth result whose response carries an error flag: classified
`Invalid ticket` (a strong authenticity failure). -/
def authInvalidTicket : SteamAuthResult := ⟨false, ⟨true, none, none⟩⟩

/-- Steam auth result where the fetch/parse step threw: classified
`Validation failed` (the transient, inconclusive case). -/
def authTransient : SteamAuthResult := ⟨true, ⟨false, none, none⟩⟩

/-- Steam auth result matching `exC1.steamId` in both the ticket id and
the owner id: classified valid. -/
def authValid : SteamAuthResult :=
  ⟨false, ⟨false, some ("76561198000000001"), some ("76561198000000001")⟩⟩

/-- Pipeline environment for the C2 counterexample: every gate before the
ticket check passes, and ticket validation fails with `Invalid ticket`. -/
def envC2 : SubmitEnv :=
  { ipLimited := false, steamLimited := false, authResult := authInvalidTicket,
    dbBanned := false, secretConfigured := true, hmac := fun _ => "sig",
    decodePayload := fun _ => none, nowSec := 0 }

/-- Token payload used by the C4 witness and the C10 witness. -/
def payloadC10 : TokenPayload := ⟨"76561198000000001", 0, 100, "nonce1"⟩

/-- Pipeline environment for the C10 witness: all gates before the stats
check pass for a body carrying token `"p.sig"`. -/
def envC10 : SubmitEnv :=
  { ipLimited := false, steamLimited := false, authResult := authValid,
    dbBanned := false, secretConfigured := true, hmac := fun _ => "sig",
    decodePayload := fun _ => some payloadC10, nowSec := 50 }

/-- A submission reaching the replay check with a verifiable token but
failing stats validation (its round-times list is empty). -/
def exC10 : StatsSubmission := { exC1 with roundTimes := [], token := "p.sig" }

/-- HMAC abstraction for the C4 witness: every payload maps to `"sig"`. -/
def hmacW : String → String := fun _ => "sig"

/-- Payload decoder for the C4 witness: every segment decodes to `payloadC10`. -/
def decodeW : String → Option TokenPayload := fun _ => some payloadC10

/-- Steam call function for the C8 witness: reports result code 8 exactly
when the request still carries a details field. -/
def callC8 : SteamCallParams → SteamCallResponse :=
  fun p => if p.details.isSome then ⟨some 8, false⟩ else ⟨none, true⟩

/-- Steam call function for the C8 witness, non-8 error branch. -/
def callC8b : SteamCallParams → SteamCallResponse := fun _ => ⟨some 2, false⟩

/-- Concrete forward-call parameters for the C8 witness. -/
def paramsC8 : SteamCallParams :=
  ⟨"apikey", "480", "12345", "76561198000000001", "184000", "2", some ("1,2,3")⟩

/-- Field selector for the three packed gun slots (`kills, damage,
acquisitions` at offsets `+0, +1, +2`). -/
def gunField (g : GunStats) : Nat → Int
  | 0 => g.kills
  | 1 => g.damage
  | _ => g.acquisitions

/-- Field selector for the five packed ability slots (`kills, uses,
utility, damage, acquisitions` at offsets `+0 .. +4`). -/
def abilityField (a : AbilityStats) : Nat → Int
  | 0 => a.kills
  | 1 => a.uses
  | 2 => a.utility
  | 3 => a.damage
  | _ => a.acquisitions

/-! ## Helper lemmas about the validator loops -/

theorem checkGuns_ok_sum (l : List GunStats) :
    ∀ (k d k' d' : Int), checkGuns l k d = .ok (k', d') →
      k' = k + (l.map (fun g => g.kills)).sum ∧ d' = d + (l.map (fun g => g.damage)).sum := by
  induction l with
  | nil =>
    intro k d k' d' h
    simp only [checkGuns, Except.ok.injEq, Prod.mk.injEq] at h
    simp [← h.1, ← h.2]
  | cons g rest ih =>
    intro k d k' d' h
    simp only [checkGuns] at h
    split at h
    · exact Except.noConfusion h
    split at h
    · exact Except.noConfusion h
    have := ih _ _ _ _ h
    simp only [List.map_cons, List.sum_cons]
    omega

theorem checkAbilities_ok_sum (l : List AbilityStats) :
    ∀ (u ut k u' ut' k' : Int), checkAbilities l u ut k = .ok (u', ut', k') →
      u' = u + (l.map (fun a => a.uses)).sum ∧
      ut' = ut + (l.map (fun a => a.utility)).sum ∧
      k' = k + (l.map (fun a => a.kills)).sum := by
  induction l with
  | nil =>
    intro u ut k u' ut' k' h
    simp only [checkAbilities, Except.ok.injEq, Prod.mk.injEq] at h
    simp [← h.1, ← h.2.1, ← h.2.2]
  | cons a rest ih =>
    intro u ut k u' ut' k' h
    simp only [checkAbilities] at h
    split at h
    · exact Except.noConfusion h
    split at h
    · exact Except.noConfusion h
    split at h
    · exact Except.noConfusion h
    have := ih _ _ _ _ _ _ h
    simp only [List.map_cons, List.sum_cons]
    omega

theorem checkAbilities_ok_mem (l : List AbilityStats) :
    ∀ (u ut k : Int) (r : Int × Int × Int), checkAbilities l u ut k = .ok r →
      ∀ a ∈ l, 0 ≤ a.uses ∧ a.uses ≤ MAX_ABILITY_USES ∧
        0 ≤ a.utility ∧ a.utility ≤ MAX_UTILITY_STAT ∧ 0 ≤ a.kills := by
  induction l with
  | nil => intro u ut k r _ a ha; exact absurd ha (by simp)
  | cons x rest ih =>
    intro u ut k r h a ha
    simp only [checkAbilities] at h
    split at h
    · exact Except.noConfusion h
    split at h
    · exact Except.noConfusion h
    split at h
    · exact Except.noConfusion h
    rcases List.mem_cons.mp ha with rfl | hrest
    · rename_i h1 h2 h3
      push_neg at h1 h2 h3
      refine ⟨?_, ?_, ?_, ?_, ?_⟩ <;> omega
    · exact ih _ _ _ _ h a hrest

/-! ## C1: combined kill total versus per-round kill total -/

/-- C1 counterexample: `exC1` passes the stats validator although its
declared gun+ability kill total (150) differs from the sum of its
per-round kill counts (255) — the validator has no cross-consistency
check between the two accountings. -/
theorem c1_cross_consistency_counterexample :
    (validateStats exC1).valid = true ∧
    (exC1.gunStats.map (fun g => g.kills)).sum + (exC1.abilityStats.map (fun a => a.kills)).sum ≠
      sumInts exC1.roundKills := by
  decide

/-- C1 amended: a submission accepted by the stats validator has its
combined gun+ability kill total bounded by `MAX_TOTAL_KILLS` (265); the
validator never compares that total with the sum of the per-round kill
counts. -/
theorem c1_combined_kills_bounded (s : StatsSubmission)
    (h : (validateStats s).valid = true) :
    (s.gunStats.map (fun g => g.kills)).sum + (s.abilityStats.map (fun a => a.kills)).sum ≤
      MAX_TOTAL_KILLS := by
  rw [validateStats.eq_def] at h
  by_cases h1 : validDifficulties.contains s.difficulty = false
  · rw [if_pos h1] at h
    exact Bool.noConfusion h
  rw [if_neg h1] at h
  split at h
  · exact Bool.noConfusion h
  split at h
  · exact Bool.noConfusion h
  split at h
  · exact Bool.noConfusion h
  split at h
  · exact Bool.noConfusion h
  split at h
  · exact Bool.noConfusion h
  split at h
  · exact Bool.noConfusion h
  rename_i totalGunKills totalGunDamage heqGuns
  split at h
  · exact Bool.noConfusion h
  split at h
  · exact Bool.noConfusion h
  split at h
  · exact Bool.noConfusion h
  split at h
  · exact Bool.noConfusion h
  split at h
  · exact Bool.noConfusion h
  rename_i totalAbilityUses totalAbilityUtility totalAbilityKills heqAb
  split at h
  · exact Bool.noConfusion h
  split at h
  · exact Bool.noConfusion h
  rename_i hcomb
  obtain ⟨hk, -⟩ := checkGuns_ok_sum _ _ _ _ _ heqGuns
  obtain ⟨-, -, hak⟩ := checkAbilities_ok_sum _ _ _ _ _ _ _ heqAb
  omega

/-- C1 amended, witness: the bound holds at the concrete accepted
submission `exC1`. -/
theorem c1_combined_kills_bounded_witness :
    (exC1.gunStats.map (fun g => g.kills)).sum +
      (exC1.abilityStats.map (fun a => a.kills)).sum ≤ MAX_TOTAL_KILLS :=
  c1_combined_kills_bounded exC1 (by decide)

/-! ## C5: no derived-quantity (combustion utility = kills) check -/

/-- C5 counterexample: `exC5` passes the stats validator although its
combustion slot reports `utility = 35` and `kills = 10` — the validator
never equates an ability's utility with its kill count. -/
theorem c5_combustion_counterexample :
    (validateStats exC5).valid = true ∧
    exC5.abilityStats.find? (fun a => a.name == "combustion") = some combustionC5 ∧
    combustionC5.utility ≠ combustionC5.kills := by
  decide

/-- C5 amended: for a submission accepted by the stats validator, every
ability (the combustion slot included) satisfies only the range bounds
`0 ≤ uses ≤ MAX_ABILITY_USES`, `0 ≤ utility ≤ MAX_UTILITY_STAT` and
`0 ≤ kills`; no equation between utility and kills is enforced. -/
theorem c5_ability_ranges_only (s : StatsSubmission)
    (h : (validateStats s).valid = true) :
    ∀ a ∈ s.abilityStats, 0 ≤ a.uses ∧ a.uses ≤ MAX_ABILITY_USES ∧
      0 ≤ a.utility ∧ a.utility ≤ MAX_UTILITY_STAT ∧ 0 ≤ a.kills := by
  rw [validateStats.eq_def] at h
  by_cases h1 : validDifficulties.contains s.difficulty = false
  · rw [if_pos h1] at h
    exact Bool.noConfusion h
  rw [if_neg h1] at h
  split at h
  · exact Bool.noConfusion h
  split at h
  · exact Bool.noConfusion h
  split at h
  · exact Bool.noConfusion h
  split at h
  · exact Bool.noConfusion h
  split at h
  · exact Bool.noConfusion h
  split at h
  · exact Bool.noConfusion h
  rename_i totalGunKills totalGunDamage heqGuns
  split at h
  · exact Bool.noConfusion h
  split at h
  · exact Bool.noConfusion h
  split at h
  · exact Bool.noConfusion h
  split at h
  · exact Bool.noConfusion h
  split at h
  · exact Bool.noConfusion h
  rename_i totalAbilityUses totalAbilityUtility totalAbilityKills heqAb
  exact checkAbilities_ok_mem _ _ _ _ _ heqAb

/-- C5 amended, witness: the range bounds at the combustion slot of the
concrete accepted submission `exC5`. -/
theorem c5_ability_ranges_only_witness :
    0 ≤ combustionC5.uses ∧ combustionC5.uses ≤ MAX_ABILITY_USES ∧
      0 ≤ combustionC5.utility ∧ combustionC5.utility ≤ MAX_UTILITY_STAT ∧
      0 ≤ combustionC5.kills :=
  c5_ability_ranges_only exC5 (by decide) combustionC5 (by decide)

/-! ## C4: token verification classification -/

/-- C4: `verifyToken` (with the secret configured) classifies its input:
a token that does not split into exactly two dot-separated segments is
rejected as malformed; a token whose signature segment differs from the
freshly computed MAC over the payload segment is rejected with
`Invalid signature`; a token whose decoded payload has `exp < now` is
rejected with `Token expired` even though its signature is correct; and
otherwise the token is valid and the decoded payload is returned. -/
theorem c4_verifyToken_classification (hmac : String → String)
    (decodePayload : String → Option TokenPayload) (now : Int) (token : String) :
    ((splitOnDot token).length ≠ 2 →
      verifyToken true hmac decodePayload now token =
        ⟨false, none, some ("Invalid token format")⟩) ∧
    (∀ payloadB64 signature, splitOnDot token = [payloadB64, signature] →
      hmac payloadB64 ≠ signature →
      verifyToken true hmac decodePayload now token =
        ⟨false, none, some ("Invalid signature")⟩) ∧
    (∀ payloadB64 signature payload, splitOnDot token = [payloadB64, signature] →
      hmac payloadB64 = signature → decodePayload payloadB64 = some payload →
      payload.exp < now →
      verifyToken true hmac decodePayload now token =
        ⟨false, none, some ("Token expired")⟩) ∧
    (∀ payloadB64 signature payload, splitOnDot token = [payloadB64, signature] →
      hmac payloadB64 = signature → decodePayload payloadB64 = some payload →
      ¬payload.exp < now →
      verifyToken true hmac decodePayload now token = ⟨true, some payload, none⟩) := by
  refine ⟨?_, ?_, ?_, ?_⟩
  · intro hlen
    simp [verifyToken, hlen]
  · intro payloadB64 signature hsplit hsig
    simp [verifyToken, hsplit, Ne.symm hsig]
  · intro payloadB64 signature payload hsplit hsig hdec hexp
    simp [verifyToken, hsplit, hsig, hdec, hexp]
  · intro payloadB64 signature payload hsplit hsig hdec hexp
    simp [verifyToken, hsplit, hsig, hdec, hexp]

/-- C4 witness: the four classifications at concrete tokens, with the
MAC fixed to `"sig"` and the decoder fixed to `payloadC10` (expiry 100):
a one-segment token is malformed, a wrong signature is rejected, the
token is expired at time 200 despite its correct signature, and the same
token is valid at time 50. -/
theorem c4_verifyToken_classification_witness :
    verifyToken true hmacW decodeW 50 "abc" = ⟨false, none, some ("Invalid token format")⟩ ∧
    verifyToken true hmacW decodeW 50 "p.wrong" = ⟨false, none, some ("Invalid signature")⟩ ∧
    verifyToken true hmacW decodeW 200 "p.sig" = ⟨false, none, some ("Token expired")⟩ ∧
    verifyToken true hmacW decodeW 50 "p.sig" = ⟨true, some payloadC10, none⟩ :=
  ⟨(c4_verifyToken_classification hmacW decodeW 50 "abc").1 (by decide),
   (c4_verifyToken_classification hmacW decodeW 50 "p.wrong").2.1 "p" "wrong"
     (by decide) (by decide),
   (c4_verifyToken_classification hmacW decodeW 200 "p.sig").2.2.1 "p" "sig" payloadC10
     (by decide) (by decide) rfl (by decide),
   (c4_verifyToken_classification hmacW decodeW 50 "p.sig").2.2.2 "p" "sig" payloadC10
     (by decide) (by decide) rfl (by decide)⟩

/-! ## C3: the replay check is a separate read followed by a write -/

/-- C3 counterexample: under the interleaving that runs both
`redis.exists` reads before either `redis.setex` write, two concurrent
submissions presenting the same nonce BOTH pass the replay check —
refuting "under every interleaving exactly one passes". -/
theorem c3_race_counterexample :
    (runRace [false, true, false, true] raceInit).proc0.outcome = RaceOutcome.passedCheck ∧
    (runRace [false, true, false, true] raceInit).proc1.outcome = RaceOutcome.passedCheck := by
  decide

/-- C3 amended: the replay check issues a separate existence read
followed by a `setex` write (not an atomic set-if-absent), so when the
two submissions run without overlap the second is rejected as a replay,
but there exists an interleaving of the two store operations under which
both submissions pass the replay check. -/
theorem c3_race_amended :
    ((runRace [false, false, true, true] raceInit).proc0.outcome = RaceOutcome.passedCheck ∧
     (runRace [false, false, true, true] raceInit).proc1.outcome = RaceOutcome.rejectedReplay) ∧
    ((runRace [false, true, false, true] raceInit).proc0.outcome = RaceOutcome.passedCheck ∧
     (runRace [false, true, false, true] raceInit).proc1.outcome = RaceOutcome.passedCheck) := by
  decide

/-! ## C9: metadata packer layout -/

theorem slotUpd_eq (d : Nat → Int) (i : Nat) (v : Int) : slotUpd d i v i = v := by
  simp [slotUpd]

theorem slotUpd_ne (d : Nat → Int) (i : Nat) (v : Int) (j : Nat) (h : j ≠ i) :
    slotUpd d i v j = d j := by
  simp [slotUpd, h]

theorem gunWrite_out (d : Nat → Int) (index : Nat) (o : Option GunStats) (j : Nat)
    (h : j < index * 3 ∨ index * 3 + 2 < j) : gunWrite d index o j = d j := by
  cases o with
  | none => rfl
  | some g =>
    simp only [gunWrite]
    rw [slotUpd_ne _ _ _ _ (by omega), slotUpd_ne _ _ _ _ (by omega),
      slotUpd_ne _ _ _ _ (by omega)]

theorem gunWrite_at (d : Nat → Int) (index : Nat) (g : GunStats) (f : Nat) (hf : f < 3) :
    gunWrite d index (some g) (index * 3 + f) = gunField g f := by
  interval_cases f
  · simp only [gunWrite, Nat.add_zero]
    rw [slotUpd_ne _ _ _ _ (by omega), slotUpd_ne _ _ _ _ (by omega), slotUpd_eq]
    rfl
  · simp only [gunWrite]
    rw [slotUpd_ne _ _ _ _ (by omega), slotUpd_eq]
    rfl
  · simp only [gunWrite]
    rw [slotUpd_eq]
    rfl

theorem abilityWrite_out (d : Nat → Int) (index : Nat) (o : Option AbilityStats) (j : Nat)
    (h : j < 24 + index * 5 ∨ 24 + index * 5 + 4 < j) : abilityWrite d index o j = d j := by
  cases o with
  | none => rfl
  | some a =>
    simp only [abilityWrite]
    rw [slotUpd_ne _ _ _ _ (by omega), slotUpd_ne _ _ _ _ (by omega),
      slotUpd_ne _ _ _ _ (by omega), slotUpd_ne _ _ _ _ (by omega),
      slotUpd_ne _ _ _ _ (by omega)]

theorem abilityWrite_at (d : Nat → Int) (index : Nat) (a : AbilityStats) (f : Nat) (hf : f < 5) :
    abilityWrite d index (some a) (24 + index * 5 + f) = abilityField a f := by
  interval_cases f
  · simp only [abilityWrite, Nat.add_zero]
    rw [slotUpd_ne _ _ _ _ (by omega), slotUpd_ne _ _ _ _ (by omega),
      slotUpd_ne _ _ _ _ (by omega), slotUpd_ne _ _ _ _ (by omega), slotUpd_eq]
    rfl
  · simp only [abilityWrite]
    rw [slotUpd_ne _ _ _ _ (by omega), slotUpd_ne _ _ _ _ (by omega),
      slotUpd_ne _ _ _ _ (by omega), slotUpd_eq]
    rfl
  · simp only [abilityWrite]
    rw [slotUpd_ne _ _ _ _ (by omega), slotUpd_ne _ _ _ _ (by omega), slotUpd_eq]
    rfl
  · simp only [abilityWrite]
    rw [slotUpd_ne _ _ _ _ (by omega), slotUpd_eq]
    rfl
  · simp only [abilityWrite]
    rw [slotUpd_eq]
    rfl

theorem packGuns_lt (guns : List GunStats) : ∀ (names : List String) (index : Nat)
    (d : Nat → Int) (j : Nat), j < index * 3 → packGuns guns names index d j = d j
  | [], _, d, j, _ => rfl
  | n :: rest, index, d, j, h => by
    simp only [packGuns]
    rw [packGuns_lt guns rest (index + 1) _ j (by omega), gunWrite_out _ _ _ _ (Or.inl h)]

theorem packGuns_ge (guns : List GunStats) : ∀ (names : List String) (index : Nat)
    (d : Nat → Int) (j : Nat), (index + names.length) * 3 ≤ j → packGuns guns names index d j = d j
  | [], _, d, j, _ => rfl
  | n :: rest, index, d, j, h => by
    simp only [List.length_cons] at h
    simp only [packGuns]
    rw [packGuns_ge guns rest (index + 1) _ j (by omega), gunWrite_out _ _ _ _ (Or.inr (by omega))]

theorem packGuns_slot (guns : List GunStats) : ∀ (names : List String) (index i : Nat)
    (d : Nat → Int) (f : Nat), i < names.length → f < 3 →
    packGuns guns names index d ((index + i) * 3 + f) =
      (match guns.find? (fun g => g.name == names.getD i "") with
       | some g => gunField g f
       | none => d ((index + i) * 3 + f))
  | [], index, i, d, f, hi, hf => by simp at hi
  | n :: rest, index, 0, d, f, hi, hf => by
    simp only [packGuns, List.getD_cons_zero, Nat.add_zero]
    rw [packGuns_lt guns rest (index + 1) _ _ (by omega)]
    cases hfind : guns.find? (fun g => g.name == n) with
    | none => rfl
    | some g => exact gunWrite_at d index g f hf
  | n :: rest, index, i + 1, d, f, hi, hf => by
    simp only [packGuns, List.getD_cons_succ]
    have harith : index + (i + 1) = (index + 1) + i := by omega
    rw [harith]
    rw [packGuns_slot guns rest (index + 1) i _ f (by simpa using hi) hf]
    cases hfind : guns.find? (fun g => g.name == rest.getD i "") with
    | some g => rfl
    | none => rw [gunWrite_out _ _ _ _ (Or.inr (by omega))]

theorem packAbilities_lt (abilities : List AbilityStats) : ∀ (names : List String) (index : Nat)
    (d : Nat → Int) (j : Nat), j < 24 + index * 5 → packAbilities abilities names index d j = d j
  | [], _, d, j, _ => rfl
  | n :: rest, index, d, j, h => by
    simp only [packAbilities]
    rw [packAbilities_lt abilities rest (index + 1) _ j (by omega),
      abilityWrite_out _ _ _ _ (Or.inl h)]

theorem packAbilities_ge (abilities : List AbilityStats) : ∀ (names : List String) (index : Nat)
    (d : Nat → Int) (j : Nat), 24 + (index + names.length) * 5 ≤ j →
    packAbilities abilities names index d j = d j
  | [], _, d, j, _ => rfl
  | n :: rest, index, d, j, h => by
    simp only [List.length_cons] at h
    simp only [packAbilities]
    rw [packAbilities_ge abilities rest (index + 1) _ j (by omega),
      abilityWrite_out _ _ _ _ (Or.inr (by omega))]

theorem packAbilities_slot (abilities : List AbilityStats) : ∀ (names : List String)
    (index i : Nat) (d : Nat → Int) (f : Nat), i < names.length → f < 5 →
    packAbilities abilities names index d (24 + (index + i) * 5 + f) =
      (match abilities.find? (fun a => a.name == names.getD i "") with
       | some a => abilityField a f
       | none => d (24 + (index + i) * 5 + f))
  | [], index, i, d, f, hi, hf => by simp at hi
  | n :: rest, index, 0, d, f, hi, hf => by
    simp only [packAbilities, List.getD_cons_zero, Nat.add_zero]
    rw [packAbilities_lt abilities rest (index + 1) _ _ (by omega)]
    cases hfind : abilities.find? (fun a => a.name == n) with
    | none => rfl
    | some a => exact abilityWrite_at d index a f hf
  | n :: rest, index, i + 1, d, f, hi, hf => by
    simp only [packAbilities, List.getD_cons_succ]
    have harith : index + (i + 1) = (index + 1) + i := by omega
    rw [harith]
    rw [packAbilities_slot abilities rest (index + 1) i _ f (by simpa using hi) hf]
    cases hfind : abilities.find? (fun a => a.name == rest.getD i "") with
    | some a => rfl
    | none => rw [abilityWrite_out _ _ _ _ (Or.inr (by omega))]

theorem packStatsToMetadata_getD (guns : List GunStats) (abilities : List AbilityStats)
    (j : Nat) (h : j < 64) :
    (packStatsToMetadata guns abilities).getD j 0 = packFun guns abilities j := by
  unfold packStatsToMetadata
  rw [List.getD_eq_getElem _ _ (by simpa using h)]
  simp

theorem packFun_gunSlot (guns : List GunStats) (abilities : List AbilityStats) (i f : Nat)
    (hi : i < 8) (hf : f < 3) :
    packFun guns abilities (i * 3 + f) =
      (match guns.find? (fun g => g.name == gunOrder.getD i "") with
       | some g => gunField g f
       | none => 0) := by
  unfold packFun
  rw [packAbilities_lt _ _ _ _ _ (by omega)]
  have := packGuns_slot guns gunOrder 0 i (fun _ => 0) f (by simp [gunOrder]; omega) hf
  simpa using this

theorem packFun_abilitySlot (guns : List GunStats) (abilities : List AbilityStats) (i f : Nat)
    (hi : i < 5) (hf : f < 5) :
    packFun guns abilities (24 + i * 5 + f) =
      (match abilities.find? (fun a => a.name == abilityOrder.getD i "") with
       | some a => abilityField a f
       | none => 0) := by
  unfold packFun
  have := packAbilities_slot abilities abilityOrder 0 i
    (packGuns guns gunOrder 0 (fun _ => 0)) f (by simp [abilityOrder]; omega) hf
  simp only [Nat.zero_add] at this
  rw [this]
  cases hfind : abilities.find? (fun a => a.name == abilityOrder.getD i "") with
  | none =>
    rw [packGuns_ge _ _ _ _ _ (by simp [gunOrder]; omega)]
  | some a => rfl

theorem packFun_tail (guns : List GunStats) (abilities : List AbilityStats) (j : Nat)
    (h : 49 ≤ j) : packFun guns abilities j = 0 := by
  unfold packFun
  rw [packAbilities_ge _ _ _ _ _ (by simp [abilityOrder]; omega),
    packGuns_ge _ _ _ _ _ (by simp [gunOrder]; omega)]

/-- C9: the metadata packer is a deterministic pure function producing a
length-64 array: gun fields occupy indices `0..23` (three slots per gun
in the fixed gun ordering), ability fields occupy indices `24..48` (five
slots per ability in the fixed ability ordering), a slot whose gun or
ability name has no matching entry stays zero, and every slot from 49
upward is zero. -/
theorem c9_packStatsToMetadata_layout (gunStats : List GunStats)
    (abilityStats : List AbilityStats) :
    (packStatsToMetadata gunStats abilityStats).length = 64 ∧
    (∀ gunStats2 abilityStats2, gunStats = gunStats2 → abilityStats = abilityStats2 →
      packStatsToMetadata gunStats abilityStats = packStatsToMetadata gunStats2 abilityStats2) ∧
    (∀ i : Fin 8,
      (∀ g, gunStats.find? (fun x => x.name == gunOrder.getD i.val "") = some g →
        (packStatsToMetadata gunStats abilityStats).getD (i.val * 3) 0 = g.kills ∧
        (packStatsToMetadata gunStats abilityStats).getD (i.val * 3 + 1) 0 = g.damage ∧
        (packStatsToMetadata gunStats abilityStats).getD (i.val * 3 + 2) 0 = g.acquisitions) ∧
      (gunStats.find? (fun x => x.name == gunOrder.getD i.val "") = none →
        (packStatsToMetadata gunStats abilityStats).getD (i.val * 3) 0 = 0 ∧
        (packStatsToMetadata gunStats abilityStats).getD (i.val * 3 + 1) 0 = 0 ∧
        (packStatsToMetadata gunStats abilityStats).getD (i.val * 3 + 2) 0 = 0)) ∧
    (∀ i : Fin 5,
      (∀ a, abilityStats.find? (fun x => x.name == abilityOrder.getD i.val "") = some a →
        (packStatsToMetadata gunStats abilityStats).getD (24 + i.val * 5) 0 = a.kills ∧
        (packStatsToMetadata gunStats abilityStats).getD (24 + i.val * 5 + 1) 0 = a.uses ∧
        (packStatsToMetadata gunStats abilityStats).getD (24 + i.val * 5 + 2) 0 = a.utility ∧
        (packStatsToMetadata gunStats abilityStats).getD (24 + i.val * 5 + 3) 0 = a.damage ∧
        (packStatsToMetadata gunStats abilityStats).getD (24 + i.val * 5 + 4) 0 =
          a.acquisitions) ∧
      (abilityStats.find? (fun x => x.name == abilityOrder.getD i.val "") = none →
        (packStatsToMetadata gunStats abilityStats).getD (24 + i.val * 5) 0 = 0 ∧
        (packStatsToMetadata gunStats abilityStats).getD (24 + i.val * 5 + 1) 0 = 0 ∧
        (packStatsToMetadata gunStats abilityStats).getD (24 + i.val * 5 + 2) 0 = 0 ∧
        (packStatsToMetadata gunStats abilityStats).getD (24 + i.val * 5 + 3) 0 = 0 ∧
        (packStatsToMetadata gunStats abilityStats).getD (24 + i.val * 5 + 4) 0 = 0)) ∧
    (∀ j : Nat, 49 ≤ j → j < 64 →
      (packStatsToMetadata gunStats abilityStats).getD j 0 = 0) := by
  have hgun : ∀ (i f : Nat), i < 8 → f < 3 → ∀ (v : Int),
      (match gunStats.find? (fun g => g.name == gunOrder.getD i "") with
       | some g => gunField g f
       | none => (0 : Int)) = v →
      (packStatsToMetadata gunStats abilityStats).getD (i * 3 + f) 0 = v := by
    intro i f hi hf v hv
    rw [packStatsToMetadata_getD _ _ _ (by omega), packFun_gunSlot _ _ _ _ hi hf, hv]
  have hab : ∀ (i f : Nat), i < 5 → f < 5 → ∀ (v : Int),
      (match abilityStats.find? (fun a => a.name == abilityOrder.getD i "") with
       | some a => abilityField a f
       | none => (0 : Int)) = v →
      (packStatsToMetadata gunStats abilityStats).getD (24 + i * 5 + f) 0 = v := by
    intro i f hi hf v hv
    rw [packStatsToMetadata_getD _ _ _ (by omega), packFun_abilitySlot _ _ _ _ hi hf, hv]
  refine ⟨by simp [packStatsToMetadata], ?_, ?_, ?_, ?_⟩
  · intro g2 a2 hg ha
    rw [hg, ha]
  · intro i
    have hi := i.isLt
    constructor
    · intro g hg
      refine ⟨?_, ?_, ?_⟩
      · have := hgun i.val 0 hi (by omega) g.kills (by simp only [hg, gunField])
        simpa using this
      · exact hgun i.val 1 hi (by omega) g.damage (by simp only [hg, gunField])
      · exact hgun i.val 2 hi (by omega) g.acquisitions (by simp only [hg, gunField])
    · intro hg
      refine ⟨?_, ?_, ?_⟩
      · have := hgun i.val 0 hi (by omega) 0 (by simp only [hg])
        simpa using this
      · exact hgun i.val 1 hi (by omega) 0 (by simp only [hg])
      · exact hgun i.val 2 hi (by omega) 0 (by simp only [hg])
  · intro i
    have hi := i.isLt
    constructor
    · intro a ha
      refine ⟨?_, ?_, ?_, ?_, ?_⟩
      · have := hab i.val 0 hi (by omega) a.kills (by simp only [ha, abilityField])
        simpa using this
      · exact hab i.val 1 hi (by omega) a.uses (by simp only [ha, abilityField])
      · exact hab i.val 2 hi (by omega) a.utility (by simp only [ha, abilityField])
      · exact hab i.val 3 hi (by omega) a.damage (by simp only [ha, abilityField])
      · exact hab i.val 4 hi (by omega) a.acquisitions (by simp only [ha, abilityField])
    · intro ha
      refine ⟨?_, ?_, ?_, ?_, ?_⟩
      · have := hab i.val 0 hi (by omega) 0 (by simp only [ha])
        simpa using this
      · exact hab i.val 1 hi (by omega) 0 (by simp only [ha])
      · exact hab i.val 2 hi (by omega) 0 (by simp only [ha])
      · exact hab i.val 3 hi (by omega) 0 (by simp only [ha])
      · exact hab i.val 4 hi (by omega) 0 (by simp only [ha])
  · intro j h49 h64
    rw [packStatsToMetadata_getD _ _ _ h64, packFun_tail _ _ _ h49]

/-- C9 witness: the layout at the concrete submission `exC1`: slot 0/1
hold the pistol kills/damage, slots of the unmatched lowercase
`reserved1` gun stay zero, slot 24 holds the blast kills, and slot 50 is
zero. -/
theorem c9_packStatsToMetadata_layout_witness :
    (packStatsToMetadata exC1.gunStats exC1.abilityStats).length = 64 ∧
    (packStatsToMetadata exC1.gunStats exC1.abilityStats).getD 0 0 = (100 : Int) ∧
    (packStatsToMetadata exC1.gunStats exC1.abilityStats).getD 1 0 = (150000 : Int) ∧
    (packStatsToMetadata exC1.gunStats exC1.abilityStats).getD 15 0 = 0 ∧
    (packStatsToMetadata exC1.gunStats exC1.abilityStats).getD 24 0 = (50 : Int) ∧
    (packStatsToMetadata exC1.gunStats exC1.abilityStats).getD 50 0 = 0 := by
  have h := c9_packStatsToMetadata_layout exC1.gunStats exC1.abilityStats
  refine ⟨h.1, ?_, ?_, ?_, ?_, ?_⟩
  · exact ((h.2.2.1 (0 : Fin 8)).1 ⟨"pistol", 100, 150000, 0⟩ (by decide)).1
  · exact ((h.2.2.1 (0 : Fin 8)).1 ⟨"pistol", 100, 150000, 0⟩ (by decide)).2.1
  · exact ((h.2.2.1 (5 : Fin 8)).2 (by decide)).1
  · exact ((h.2.2.2.1 (0 : Fin 5)).1 ⟨"blast", 50, 10, 100, 0, 0⟩ (by decide)).1
  · exact h.2.2.2.2 50 (by omega) (by omega)

/-! ## C7: per-round time and kill-count checks -/

theorem roundFailReason_isSome (i : Nat) (t k : Int) (row : SpawnRow)
    (hv : t < row.lastSpawnTimeSec * 1000 + SPAWN_DURATION_MS ∨
      k < row.totalMonsters - row.mutants ∨ k > row.totalMonsters) :
    (roundFailReason i t k row).isSome = true := by
  simp only [roundFailReason]
  split
  · simp
  split
  · simp
  split
  · simp
  rename_i h1 h2 h3
  rcases hv with h | h | h <;> omega

theorem zip_getD : ∀ (l1 l2 : List Int) (j : Nat), j < l1.length → j < l2.length →
    (l1.zip l2).getD j (0, 0) = (l1.getD j 0, l2.getD j 0)
  | [], _, j, h1, _ => by simp at h1
  | _ :: _, [], j, _, h2 => by simp at h2
  | x :: xs, y :: ys, 0, _, _ => by simp
  | x :: xs, y :: ys, j + 1, h1, h2 => by
    simp only [List.zip_cons_cons, List.getD_cons_succ]
    exact zip_getD xs ys j (by simpa using h1) (by simpa using h2)

theorem checkRounds_first : ∀ (i : Nat) (pairs : List (Int × Int)) (rows : List SpawnRow)
    (i0 : Nat), i < pairs.length → i < rows.length →
    (∀ j, j < i → roundFailReason (i0 + j) (pairs.getD j (0, 0)).1 (pairs.getD j (0, 0)).2
      (rows.getD j ⟨0, 0, 0⟩) = none) →
    (roundFailReason (i0 + i) (pairs.getD i (0, 0)).1 (pairs.getD i (0, 0)).2
      (rows.getD i ⟨0, 0, 0⟩)).isSome = true →
    checkRounds pairs rows i0 =
      roundFailReason (i0 + i) (pairs.getD i (0, 0)).1 (pairs.getD i (0, 0)).2
        (rows.getD i ⟨0, 0, 0⟩) := by
  intro i
  induction i with
  | zero =>
    intro pairs rows i0 h1 h2 hmin hv
    match pairs, rows with
    | [], _ => simp at h1
    | _ :: _, [] => simp at h2
    | (t, k) :: rest, row :: rows2 =>
      simp only [List.getD_cons_zero, Nat.add_zero] at hv ⊢
      rcases hr : roundFailReason i0 t k row with _ | r
      · rw [hr] at hv
        simp at hv
      · simp only [checkRounds, hr]
  | succ i ih =>
    intro pairs rows i0 h1 h2 hmin hv
    match pairs, rows with
    | [], _ => simp at h1
    | _ :: _, [] => simp at h2
    | (t, k) :: rest, row :: rows2 =>
      have h0 := hmin 0 (Nat.succ_pos _)
      simp only [List.getD_cons_zero, Nat.add_zero] at h0
      simp only [checkRounds, h0, List.getD_cons_succ]
      have harith : i0 + (i + 1) = (i0 + 1) + i := by omega
      simp only [List.getD_cons_succ] at hv
      rw [harith] at hv ⊢
      exact ih rest rows2 (i0 + 1) (by simpa using h1) (by simpa using h2)
        (fun j hj => by
          have hj1 := hmin (j + 1) (by omega)
          have : i0 + (j + 1) = (i0 + 1) + j := by omega
          simpa [List.getD_cons_succ, this] using hj1) hv

/-- C7: for a submission reaching the per-round checks (valid difficulty
and both round lists of length 10), if round `i` is the first round
violating one of the three per-round conditions — elapsed time below
`lastSpawnTriggerSeconds * 1000 + 2300`, kills below
`totalMonsters − mutants`, or kills above `totalMonsters` — then the
validator rejects with exactly the reason for round `i` (a reason string
naming round `i + 1`). -/
theorem c7_per_round_checks (s : StatsSubmission) (i : Nat)
    (hdiff : validDifficulties.contains s.difficulty = true)
    (hlen1 : s.roundTimes.length = EXPECTED_ROUND_COUNT)
    (hlen2 : s.roundKills.length = EXPECTED_ROUND_COUNT)
    (hi : i < EXPECTED_ROUND_COUNT)
    (hviol : s.roundTimes.getD i 0 <
        (ROUND_SPAWN_DATA.getD i ⟨0, 0, 0⟩).lastSpawnTimeSec * 1000 + SPAWN_DURATION_MS ∨
      s.roundKills.getD i 0 <
        (ROUND_SPAWN_DATA.getD i ⟨0, 0, 0⟩).totalMonsters -
          (ROUND_SPAWN_DATA.getD i ⟨0, 0, 0⟩).mutants ∨
      s.roundKills.getD i 0 > (ROUND_SPAWN_DATA.getD i ⟨0, 0, 0⟩).totalMonsters)
    (hfirst : ∀ j, j < i → roundFailReason j (s.roundTimes.getD j 0) (s.roundKills.getD j 0)
      (ROUND_SPAWN_DATA.getD j ⟨0, 0, 0⟩) = none) :
    (validateStats s).valid = false ∧
    (validateStats s).reason = roundFailReason i (s.roundTimes.getD i 0) (s.roundKills.getD i 0)
      (ROUND_SPAWN_DATA.getD i ⟨0, 0, 0⟩) ∧
    (roundFailReason i (s.roundTimes.getD i 0) (s.roundKills.getD i 0)
      (ROUND_SPAWN_DATA.getD i ⟨0, 0, 0⟩)).isSome = true := by
  simp only [EXPECTED_ROUND_COUNT] at hlen1 hlen2 hi
  have hrowlen : ROUND_SPAWN_DATA.length = 10 := rfl
  have hsome := roundFailReason_isSome i (s.roundTimes.getD i 0) (s.roundKills.getD i 0)
    (ROUND_SPAWN_DATA.getD i ⟨0, 0, 0⟩) hviol
  have hcr : checkRounds (s.roundTimes.zip s.roundKills) ROUND_SPAWN_DATA 0 =
      roundFailReason i (s.roundTimes.getD i 0) (s.roundKills.getD i 0)
        (ROUND_SPAWN_DATA.getD i ⟨0, 0, 0⟩) := by
    have hz : i < (s.roundTimes.zip s.roundKills).length := by
      simp [List.length_zip, hlen1, hlen2]
      omega
    have hr : i < ROUND_SPAWN_DATA.length := by omega
    have := checkRounds_first i (s.roundTimes.zip s.roundKills) ROUND_SPAWN_DATA 0 hz hr
      (fun j hj => by
        rw [zip_getD s.roundTimes s.roundKills j (by omega) (by omega)]
        simpa using hfirst j hj)
      (by
        rw [zip_getD s.roundTimes s.roundKills i (by omega) (by omega)]
        simpa using hsome)
    rw [zip_getD s.roundTimes s.roundKills i (by omega) (by omega)] at this
    simpa using this
  obtain ⟨r, hr⟩ := Option.isSome_iff_exists.mp hsome
  rw [hr] at hcr
  rw [validateStats.eq_def]
  rw [if_neg (by simp only [hdiff]; simp)]
  rw [if_neg (by simp [hlen1, EXPECTED_ROUND_COUNT])]
  rw [if_neg (by simp [hlen2, EXPECTED_ROUND_COUNT])]
  refine ⟨?_, ?_, hsome⟩
  · simp [hcr]
  · simp only [hcr]
    exact hr.symm

/-- C7 witness: the concrete submission `exC7` (round 1 time 17000 ms,
below the 15000 + 2300 = 17300 ms minimum) is rejected with the round-1
reason. -/
theorem c7_per_round_checks_witness :
    (validateStats exC7).valid = false ∧
    (validateStats exC7).reason = roundFailReason 0 (exC7.roundTimes.getD 0 0)
      (exC7.roundKills.getD 0 0) (ROUND_SPAWN_DATA.getD 0 ⟨0, 0, 0⟩) ∧
    (roundFailReason 0 (exC7.roundTimes.getD 0 0) (exC7.roundKills.getD 0 0)
      (ROUND_SPAWN_DATA.getD 0 ⟨0, 0, 0⟩)).isSome = true :=
  c7_per_round_checks exC7 0 (by decide) (by decide) (by decide) (by decide) (by decide)
    (fun j hj => absurd hj (Nat.not_lt_zero j))

/-! ## C2: which ticket-validation failures invoke the ban policy -/

/-- C2 counterexample: a submit-score request whose ticket validation
fails with the strong `Invalid ticket` classification is rejected with
status 403 but the ban policy is NOT invoked — refuting "for every
request whose ticket validation fails with one of those classifications
the account is banned". -/
theorem c2_ban_policy_counterexample :
    validateSteamTicket authInvalidTicket exC1.steamId = ⟨false, some ("Invalid ticket")⟩ ∧
    (submitScorePost envC2 exC1 emptyNonces).1.banInvoked = false ∧
    (submitScorePost envC2 exC1 emptyNonces).1.status = 403 := by
  decide

/-- C2 amended: in the submit-score pipeline's ticket gate, NO ticket
validation failure (strong or transient) invokes the ban policy — the
request is rejected 403 without a ban; the auto-ban-on-ticket-failure
behaviour lives in the token-issuance endpoint, where EVERY ticket
validation failure, the transient `Validation failed` classification
included, invokes the ban policy. -/
theorem c2_ban_policy_location :
    (∀ (env : SubmitEnv) (body : StatsSubmission) (store : NonceStore),
      env.ipLimited = false → env.steamLimited = false →
      body.steamId ≠ "" → body.ticket ≠ "" →
      (validateSteamTicket env.authResult body.steamId).valid = false →
      (submitScorePost env body store).1.banInvoked = false ∧
      (submitScorePost env body store).1.status = 403) ∧
    (∀ (ipLimited steamLimited : Bool) (steamId ticket : String) (dbBanned : Bool)
        (auth : SteamAuthResult),
      ipLimited = false → steamLimited = false →
      steamId ≠ "" → ticket ≠ "" → dbBanned = false →
      (validateSteamTicket auth steamId).valid = false →
      (getTokenPost ipLimited steamLimited steamId ticket dbBanned auth).banInvoked = true) := by
  constructor
  · intro env body store hip hst hsid htk hticket
    simp [submitScorePost, hip, hst, hsid, htk, hticket]
  · intro ipLimited steamLimited steamId ticket dbBanned auth hip hst hsid htk hban hticket
    simp [getTokenPost, hip, hst, hsid, htk, hban, hticket]

/-- C2 amended, witness: the concrete strong failure (`Invalid ticket`)
is rejected by submit-score without a ban, while the token-issuance
endpoint bans on the concrete transient failure (`Validation failed`). -/
theorem c2_ban_policy_location_witness :
    ((submitScorePost envC2 exC1 emptyNonces).1.banInvoked = false ∧
     (submitScorePost envC2 exC1 emptyNonces).1.status = 403) ∧
    (getTokenPost false false "76561198000000001" "tk" false authTransient).banInvoked = true :=
  ⟨c2_ban_policy_location.1 envC2 exC1 emptyNonces rfl rfl (by decide) (by decide) (by decide),
   c2_ban_policy_location.2 false false "76561198000000001" "tk" false authTransient
     rfl rfl (by decide) (by decide) rfl (by decide)⟩

/-! ## C10: the nonce is consumed before the stats check and stays so -/

/-- C10: a submission that passes the replay check with a fresh nonce has
that nonce recorded with TTL = token remaining lifetime + 60 s; a stats
rejection still returns 403 without a ban and does NOT roll the record
back, so replaying the same token afterwards hits the replay branch:
403, response `Banned = true`, and the ban policy invoked with the
token-replay reason. -/
theorem c10_nonce_consumed_before_stats (env : SubmitEnv) (body : StatsSubmission)
    (store : NonceStore) (payload : TokenPayload)
    (hip : env.ipLimited = false) (hst : env.steamLimited = false)
    (hsid : body.steamId ≠ "") (htk : body.ticket ≠ "")
    (hticket : (validateSteamTicket env.authResult body.steamId).valid = true)
    (hban : env.dbBanned = false)
    (hdiff : body.difficulty ≠ "") (htok : body.token ≠ "")
    (hverify : verifyToken env.secretConfigured env.hmac env.decodePayload env.nowSec body.token
      = ⟨true, some payload, none⟩)
    (hmatch : payload.steamId = body.steamId)
    (hfresh : store payload.nonce = none)
    (hstats : (validateStats body).valid = false) :
    (submitScorePost env body store).1.status = 403 ∧
    (submitScorePost env body store).1.success = false ∧
    (submitScorePost env body store).1.banInvoked = false ∧
    (submitScorePost env body store).2 payload.nonce =
      some (payload.exp - env.nowSec + 60) ∧
    (submitScorePost env body ((submitScorePost env body store).2)).1.banInvoked = true ∧
    (submitScorePost env body ((submitScorePost env body store).2)).1.banReason =
      some ("Token replay attack (tampered client)") ∧
    (submitScorePost env body ((submitScorePost env body store).2)).1.bannedFlag = true := by
  have hrun : submitScorePost env body store =
      (⟨403, false, false, false, none⟩,
       fun n => if n = payload.nonce then some (payload.exp - env.nowSec + 60) else store n) := by
    simp [submitScorePost, hip, hst, hsid, htk, hticket, hban, hdiff, htok, hverify, hmatch,
      hfresh, hstats]
  refine ⟨by rw [hrun], by rw [hrun], by rw [hrun], by rw [hrun]; simp, ?_, ?_, ?_⟩ <;>
  · rw [hrun]
    simp [submitScorePost, hip, hst, hsid, htk, hticket, hban, hdiff, htok, hverify, hmatch]

/-- C10 witness: the concrete environment `envC10` with submission
`exC10` (verifiable token `"p.sig"`, empty round-times list): the stats
rejection leaves the nonce consumed (TTL 110 = 100 − 50 + 60) and the
replay of the same submission is banned as a token replay. -/
theorem c10_nonce_consumed_before_stats_witness :
    (submitScorePost envC10 exC10 emptyNonces).1.status = 403 ∧
    (submitScorePost envC10 exC10 emptyNonces).1.success = false ∧
    (submitScorePost envC10 exC10 emptyNonces).1.banInvoked = false ∧
    (submitScorePost envC10 exC10 emptyNonces).2 payloadC10.nonce =
      some (payloadC10.exp - envC10.nowSec + 60) ∧
    (submitScorePost envC10 exC10 ((submitScorePost envC10 exC10 emptyNonces).2)).1.banInvoked
      = true ∧
    (submitScorePost envC10 exC10 ((submitScorePost envC10 exC10 emptyNonces).2)).1.banReason
      = some ("Token replay attack (tampered client)") ∧
    (submitScorePost envC10 exC10 ((submitScorePost envC10 exC10 emptyNonces).2)).1.bannedFlag
      = true :=
  c10_nonce_consumed_before_stats envC10 exC10 emptyNonces payloadC10
    rfl rfl (by decide) (by decide) (by decide) rfl (by decide) (by decide)
    (by decide) (by decide) rfl (by decide)

/-! ## C6: fixed-window rate limiter -/

theorem checkRateLimit_counts (key : String) (window maxRequests nowMs : Nat) (s : RlStore) :
    ((checkRateLimit key window maxRequests nowMs s).2).counts (rlBucket key window nowMs) =
      s.counts (rlBucket key window nowMs) + 1 := by
  simp only [checkRateLimit]
  split <;> simp <;> split <;> simp

theorem checkRateLimit_limited (key : String) (window maxRequests nowMs : Nat) (s : RlStore) :
    (checkRateLimit key window maxRequests nowMs s).1.limited =
      decide (maxRequests < s.counts (rlBucket key window nowMs) + 1) := by
  simp only [checkRateLimit]
  split
  · rename_i hgt
    simp [hgt]
  · rename_i hle
    simp [hle]

theorem checkRateLimit_ttls_first (key : String) (window maxRequests nowMs : Nat) (s : RlStore)
    (h0 : s.counts (rlBucket key window nowMs) = 0) :
    ((checkRateLimit key window maxRequests nowMs s).2).ttls (rlBucket key window nowMs) =
      (window : Int) := by
  simp only [checkRateLimit]
  split <;> simp [h0]

theorem checkRateLimit_retryAfter (key : String) (window maxRequests nowMs : Nat) (s : RlStore)
    (h : (checkRateLimit key window maxRequests nowMs s).1.limited = true) :
    (checkRateLimit key window maxRequests nowMs s).1.retryAfter =
      some (if 0 < ((checkRateLimit key window maxRequests nowMs s).2).ttls (rlBucket key window nowMs)
            then ((checkRateLimit key window maxRequests nowMs s).2).ttls (rlBucket key window nowMs)
            else (window : Int)) := by
  simp only [checkRateLimit] at h ⊢
  split at h
  · rename_i hgt
    simp [hgt]
  · exact Bool.noConfusion h

theorem rlIterate_counts (key : String) (window maxRequests nowMs : Nat) :
    ∀ (n : Nat) (s : RlStore),
      (rlIterate key window maxRequests nowMs n s).counts (rlBucket key window nowMs) =
        s.counts (rlBucket key window nowMs) + n := by
  intro n
  induction n with
  | zero => intro s; simp [rlIterate]
  | succ n ih =>
    intro s
    have := ih (checkRateLimit key window maxRequests nowMs s).2
    rw [rlIterate, this, checkRateLimit_counts]
    omega

/-- C6: the rate limiter buckets by integer division of epoch seconds by
the window length, increments the bucket counter on every call, sets the
bucket expiry to the window length on the first increment, reports
limited exactly when the post-increment count exceeds `maxRequests`
(with `retryAfter` the stored TTL, falling back to the window length
when that TTL is non-positive) — so, starting from a fresh store, the
first `maxRequests` calls for a key are not limited and every later call
in the same window is. -/
theorem c6_fixed_window_rate_limiter :
    (∀ (key : String) (window maxRequests nowMs : Nat) (s : RlStore),
      rlBucket key window nowMs = "rl:" ++ key ++ ":" ++ toString (nowMs / 1000 / window) ∧
      ((checkRateLimit key window maxRequests nowMs s).2).counts (rlBucket key window nowMs) =
        s.counts (rlBucket key window nowMs) + 1 ∧
      (s.counts (rlBucket key window nowMs) = 0 →
        ((checkRateLimit key window maxRequests nowMs s).2).ttls (rlBucket key window nowMs) =
          (window : Int)) ∧
      ((checkRateLimit key window maxRequests nowMs s).1.limited = true ↔
        maxRequests < s.counts (rlBucket key window nowMs) + 1) ∧
      ((checkRateLimit key window maxRequests nowMs s).1.limited = true →
        (checkRateLimit key window maxRequests nowMs s).1.retryAfter =
          some (if 0 < ((checkRateLimit key window maxRequests nowMs s).2).ttls
                      (rlBucket key window nowMs)
                then ((checkRateLimit key window maxRequests nowMs s).2).ttls
                      (rlBucket key window nowMs)
                else (window : Int)))) ∧
    (∀ (key : String) (window maxRequests nowMs n : Nat),
      (checkRateLimit key window maxRequests nowMs
          (rlIterate key window maxRequests nowMs n rlEmpty)).1.limited
        = decide (maxRequests < n + 1)) := by
  constructor
  · intro key window maxRequests nowMs s
    refine ⟨rfl, checkRateLimit_counts _ _ _ _ _, checkRateLimit_ttls_first _ _ _ _ _, ?_,
      checkRateLimit_retryAfter _ _ _ _ _⟩
    rw [checkRateLimit_limited]
    simp
  · intro key window maxRequests nowMs n
    rw [checkRateLimit_limited, rlIterate_counts]
    simp [rlEmpty]

/-- C6 witness: with window 600 and limit 3 on a fresh store, the first
call stores a TTL of 600, the fourth call is limited, and its retry hint
follows the stored-TTL rule. -/
theorem c6_fixed_window_rate_limiter_witness :
    ((checkRateLimit "k" 600 3 0 rlEmpty).2).ttls (rlBucket "k" 600 0) = (600 : Int) ∧
    (checkRateLimit "k" 600 3 0 (rlIterate "k" 600 3 0 3 rlEmpty)).1.limited =
      decide (3 < 3 + 1) ∧
    (checkRateLimit "k" 600 3 0 (rlIterate "k" 600 3 0 3 rlEmpty)).1.retryAfter =
      some (if 0 < ((checkRateLimit "k" 600 3 0 (rlIterate "k" 600 3 0 3 rlEmpty)).2).ttls
                  (rlBucket "k" 600 0)
            then ((checkRateLimit "k" 600 3 0 (rlIterate "k" 600 3 0 3 rlEmpty)).2).ttls
                  (rlBucket "k" 600 0)
            else (600 : Int)) :=
  ⟨(c6_fixed_window_rate_limiter.1 "k" 600 3 0 rlEmpty).2.2.1 rfl,
   c6_fixed_window_rate_limiter.2 "k" 600 3 0 3,
   (c6_fixed_window_rate_limiter.1 "k" 600 3 0
     (rlIterate "k" 600 3 0 3 rlEmpty)).2.2.2.2 (by decide)⟩

/-! ## C8: one retry without details on result code 8 -/

/-- C8: the forward step retries exactly once, with the details field
omitted and all other parameters unchanged, precisely when the first
response carries result code 8; any other outcome issues no retry. -/
theorem c8_retry_on_result_code_8 (call : SteamCallParams → SteamCallResponse)
    (params : SteamCallParams) :
    ((call params).resultCode = some 8 →
      (submitWithRetry call params).2 = [params, { params with details := none }] ∧
      (submitWithRetry call params).1 = call { params with details := none }) ∧
    ((call params).resultCode ≠ some 8 →
      (submitWithRetry call params).2 = [params] ∧
      (submitWithRetry call params).1 = call params) := by
  constructor
  · intro h
    simp [submitWithRetry, h]
  · intro h
    simp [submitWithRetry, h]

/-- C8 witness: with a call function answering result code 8 to any
request that still carries details, the retry is issued without details
and succeeds; with a call function answering result code 2, no retry is
issued. -/
theorem c8_retry_on_result_code_8_witness :
    ((submitWithRetry callC8 paramsC8).2 = [paramsC8, { paramsC8 with details := none }] ∧
     (submitWithRetry callC8 paramsC8).1 = callC8 { paramsC8 with details := none }) ∧
    ((submitWithRetry callC8b paramsC8).2 = [paramsC8] ∧
     (submitWithRetry callC8b paramsC8).1 = callC8b paramsC8) :=
  ⟨(c8_retry_on_result_code_8 callC8 paramsC8).1 (by decide),
   (c8_retry_on_result_code_8 callC8b paramsC8).2 (by decide)⟩

end ExonWeb
